import Mathlib

/-!
Shallow embedding of `src/sbom_check/checks.py` (the sbom-check library).

The library validates SPDX SBOM documents for completeness beyond the
official specification.  The external collaborators (Python's `json.loads`,
`spdx_tools`' `JsonLikeDictParser` and `validate_full_spdx_document`) are
modelled as parameters; everything else is translated function-by-function
from the source.

Python truthiness conventions used throughout the translation:
* `not <list>` holds iff the list is empty;
* `not <str>` holds iff the string is empty;
* `None` is falsy; arbitrary objects (`Actor`, `SpdxNoAssertion`, `Version`)
  are truthy.
-/

namespace SbomCheck

/-- The `RelationshipType` enum of `spdx_tools` (subset: the checker only
inspects `DESCRIBES`; `OTHER_TYPE` stands for every remaining member). -/
inductive RelationshipType where
  | DESCRIBES
  | DESCRIBED_BY
  | CONTAINS
  | DEPENDS_ON
  | OTHER_TYPE
deriving DecidableEq, Repr

/-- The `related_spdx_element_id` of a `Relationship` may be an element id
string, `SpdxNoAssertion` or `SpdxNone`. -/
inductive SpdxElementRef where
  | ref (id : String)
  | noAssertion
  | noneElem
deriving DecidableEq, Repr

/-- `spdx_tools` `Relationship` dataclass; equality (used by
`_check_primary_package`) compares all four fields.  The constructor call
`Relationship(a, t, b)` leaves `comment = None`. -/
structure Relationship where
  spdx_element_id : String
  relationship_type : RelationshipType
  related_spdx_element_id : SpdxElementRef
  comment : Option String
deriving DecidableEq, Repr

/-- A package `supplier` is `Optional[Actor | SpdxNoAssertion]`.  In Python,
`None` is falsy while `Actor` and `SpdxNoAssertion` objects are truthy. -/
inductive SupplierField where
  | absent
  | noAssertion
  | actor (name : String)
deriving DecidableEq, Repr

/-- A license field is `Optional[LicenseExpression | SpdxNoAssertion |
SpdxNone]`; only `expr` answers true to
`isinstance(x, LicenseExpression)`. -/
inductive LicenseField where
  | absent
  | noAssertion
  | noneLicense
  | expr (expression : String)
deriving DecidableEq, Repr

/-- `copyright_text` is `Optional[str | SpdxNoAssertion]`. -/
inductive CopyrightField where
  | absent
  | noAssertion
  | text (s : String)
deriving DecidableEq, Repr

/-- Models Python `isinstance(x, LicenseExpression)` on a license field. -/
def LicenseField.is_license_expression : LicenseField → Bool
  | .expr _ => true
  | _ => false

/-- Models Python `not x` on a `copyright_text` field: `None` and the empty
string are falsy; an `SpdxNoAssertion` object is truthy. -/
def CopyrightField.py_not : CopyrightField → Bool
  | .absent => true
  | .noAssertion => false
  | .text s => s = ""

/-- The fields of the `spdx_tools` `Package` dataclass read by the checker. -/
structure Package where
  spdx_id : String
  name : String
  supplier : SupplierField
  files_analyzed : Bool
  license_concluded : LicenseField
  license_declared : LicenseField
  copyright_text : CopyrightField
deriving DecidableEq, Repr

/-- The fields of the `spdx_tools` `File` dataclass read by the checker. -/
structure File where
  spdx_id : String
  name : String
  license_concluded : LicenseField
  license_info_in_file : List LicenseField
  copyright_text : CopyrightField
deriving DecidableEq, Repr

/-- The fields of `CreationInfo` read by the checker.  `license_list_version`
is an `Optional[Version]`; a `Version` object is always truthy, so only
absence makes `not creation_info.license_list_version` hold. -/
structure CreationInfo where
  spdx_version : String
  spdx_id : String
  name : String
  license_list_version : Option String
deriving DecidableEq, Repr

/-- The fields of the `spdx_tools` `Document` read by the checker. -/
structure Document where
  creation_info : CreationInfo
  packages : List Package
  files : List File
  relationships : List Relationship
deriving DecidableEq, Repr

/-- The `SpdxElementType` enum (subset: members the checker can attach,
plus a stand-in for the rest, which external validator messages may use). -/
inductive SpdxElementType where
  | CREATION_INFO
  | DOCUMENT
  | PACKAGE
  | FILE
  | OTHER_ELEMENT
deriving DecidableEq, Repr

/-- Python `str()` of an `SpdxElementType` enum member. -/
def SpdxElementType.py_str : SpdxElementType → String
  | .CREATION_INFO => "SpdxElementType.CREATION_INFO"
  | .DOCUMENT => "SpdxElementType.DOCUMENT"
  | .PACKAGE => "SpdxElementType.PACKAGE"
  | .FILE => "SpdxElementType.FILE"
  | .OTHER_ELEMENT => "SpdxElementType.OTHER_ELEMENT"

/-- Python `str()` of `context.element_type`, which may be `None`. -/
def elementTypeStr : Option SpdxElementType → String
  | none => "None"
  | some t => t.py_str

/-- `spdx_tools` `ValidationContext`.  The `full_element : Any` field is
omitted: the checker always passes `None` for it and never reads it. -/
structure ValidationContext where
  spdx_id : Option String
  parent_id : Option String
  element_type : Option SpdxElementType
deriving DecidableEq, Repr

/-- `spdx_tools` `ValidationMessage`: a message string plus its context. -/
structure ValidationMessage where
  validation_message : String
  context : ValidationContext
deriving DecidableEq, Repr

/-- `COMPLETENESS_EXCEPTION` constant (checks.py line 30). -/
def COMPLETENESS_EXCEPTION : String := "\n*** completeness exception ***\n"

/-- `SPDX_VERSIONS` constant (checks.py line 31). -/
def SPDX_VERSIONS : List String := ["SPDX-2.3"]

/-- CSV header field name constants (checks.py lines 34-39). -/
def SPDX_ID : String := "spdx_id"

def PARENT_ID : String := "parent_id"

def ELEMENT_TYPE : String := "element_type"

def MESSAGE : String := "message"

def CSV_HEADER : List String := [SPDX_ID, PARENT_ID, ELEMENT_TYPE, MESSAGE]

/-- The `dict[str, str]` produced by `_validation_message_to_dict`, with its
four fixed keys as fields. -/
structure MessageDict where
  spdx_id : String
  parent_id : String
  element_type : String
  message : String
deriving DecidableEq, Repr

/-- Python `x or ""` for `x : Optional[str]` (used on `spdx_id` and
`parent_id`): `None` and `""` both yield `""`. -/
def orEmpty : Option String → String
  | none => ""
  | some s => s

/-- `_validation_message_to_dict` (checks.py lines 80-89). -/
def _validation_message_to_dict (message : ValidationMessage) : MessageDict :=
  { spdx_id := orEmpty message.context.spdx_id
    parent_id := orEmpty message.context.parent_id
    element_type := elementTypeStr message.context.element_type
    message := message.validation_message }

/-- Python `s.replace("\n", "")`: deletes every newline character. -/
def pyStripNewlines (s : String) : String :=
  ⟨s.data.filter fun c => c ≠ Char.ofNat 10⟩

/-- The `CheckResult` dataclass (checks.py lines 42-77): the raw validation
messages plus parser error strings. -/
structure CheckResult where
  _validation_messages : List ValidationMessage
  errors : List String
deriving DecidableEq, Repr

/-- `CheckResult.is_valid` (checks.py lines 49-54): Python
`any([list1, list2])` is true iff either list is non-empty. -/
def CheckResult.is_valid (r : CheckResult) : Bool :=
  !r._validation_messages.isEmpty || !r.errors.isEmpty

/-- `CheckResult.validation_messages` property (checks.py lines 56-64). -/
def CheckResult.validation_messages (r : CheckResult) : List MessageDict :=
  r._validation_messages.map _validation_message_to_dict

/-- `CheckResult.csv_rows` property (checks.py lines 66-77). -/
def CheckResult.csv_rows (r : CheckResult) : List (List String) :=
  [CSV_HEADER] ++ r.validation_messages.map fun message =>
    [message.spdx_id, message.parent_id, message.element_type,
      pyStripNewlines message.message]

/-- `_create_custom_validation_message` (checks.py lines 331-338).  The
Python defaults (`element_type=None`, `spdx_id=""`) are passed explicitly at
every call site below; the `element` argument is always `None` and unused. -/
def _create_custom_validation_message (message : String)
    (element_type : Option SpdxElementType) (spdx_id : String) :
    ValidationMessage :=
  { validation_message := COMPLETENESS_EXCEPTION ++ message
    context := { spdx_id := some spdx_id, parent_id := none
                 element_type := element_type } }

/-- `_check_creation_info` (checks.py lines 154-183).  The version message is
an f-string rendering the `SPDX_VERSIONS` list, which Python prints as
`[\x27SPDX-2.3\x27]`. -/
def _check_creation_info (creation_info : CreationInfo) :
    List ValidationMessage :=
  (if creation_info.spdx_version ∉ SPDX_VERSIONS then
    [_create_custom_validation_message
      "The Document uses an invalid version. Valid versions include: [\x27SPDX-2.3\x27]."
      (some SpdxElementType.CREATION_INFO) ""]
  else []) ++
  (if creation_info.name = "" then
    [_create_custom_validation_message "The Document has no name."
      (some SpdxElementType.CREATION_INFO) ""]
  else []) ++
  (if creation_info.license_list_version = none then
    [_create_custom_validation_message
      "The Document does not have a license list version."
      (some SpdxElementType.CREATION_INFO) ""]
  else [])

/-- `_check_has_packages` (checks.py lines 186-193). -/
def _check_has_packages (document : Document) : Option ValidationMessage :=
  if document.packages = [] then
    some (_create_custom_validation_message
      "The Document contains no packages."
      (some SpdxElementType.DOCUMENT) "")
  else none

/-- The count-mismatch message of `_check_primary_package` (checks.py lines
211-214).  The source concatenates a plain string literal containing
`f\x7blen(actual_describes_relationships)\x7d`: the `f` prefix is inside the
string, so the text is emitted verbatim and the count is never
interpolated. -/
def describes_count_message_text : String :=
  "This SPDX Document has an incorrect number of DESCRIBES relationships. An SPDX document must directly describe one top-level package. This document describes f\x7blen(actual_describes_relationships)\x7d packages."

/-- The target-mismatch message of `_check_primary_package` (checks.py lines
221-225), faithful to the source's doubled article ("to a a package"). -/
def describes_mismatch_message_text : String :=
  "This SPDX Document\x27s DESCRIBES relationship is to a a package other than the first in the package info section. Either the relationship is incorrect or the top-level package that the document is describing is not first in the packages collection."

/-- `_check_primary_package` (checks.py lines 196-229).  The caller
(`check_completeness`) only invokes it after `_check_has_packages`, so
`document.packages` is non-empty there; `packages[0]` is embedded as a match
whose empty branch is unreachable for the caller. -/
def _check_primary_package (document : Document) : Option ValidationMessage :=
  match document.packages with
  | [] => none
  | primary_package :: _ =>
    let primary_package_id := primary_package.spdx_id
    let document_id := document.creation_info.spdx_id
    let expected_describes_relationship : Relationship :=
      { spdx_element_id := document_id
        relationship_type := RelationshipType.DESCRIBES
        related_spdx_element_id := SpdxElementRef.ref primary_package_id
        comment := none }
    let actual_describes_relationships := document.relationships.filter
      fun relationship =>
        relationship.relationship_type = RelationshipType.DESCRIBES
    -- the source's `len(...) != 1` early return followed by the `[0]`
    -- access is embedded as one match: the `[relationship]` branch is
    -- exactly `len == 1`, with `relationship` the list's only element
    match actual_describes_relationships with
    | [relationship] =>
      if expected_describes_relationship ≠ relationship then
        some (_create_custom_validation_message
          describes_mismatch_message_text
          (some SpdxElementType.DOCUMENT) "")
      else
        none
    | _ =>
      some (_create_custom_validation_message describes_count_message_text
        (some SpdxElementType.DOCUMENT) "")

/-- `_has_licenses` (checks.py lines 270-276): Python `any` of the two
`isinstance(_, LicenseExpression)` tests.  Declared after `_check_packages`
in the source; Lean needs it first. -/
def _has_licenses (license_concluded license_declared : LicenseField) : Bool :=
  license_concluded.is_license_expression ||
  license_declared.is_license_expression

/-- `_check_packages` (checks.py lines 232-267): the loop body appended per
package, in package order. -/
def _check_packages : List Package → List ValidationMessage
  | [] => []
  | package :: rest =>
    ((if package.supplier = SupplierField.absent ∨
        package.supplier = SupplierField.noAssertion then
      [_create_custom_validation_message
        "This package has no supplier populated."
        (some SpdxElementType.PACKAGE) package.spdx_id]
    else []) ++
    (if package.files_analyzed = false then
      [_create_custom_validation_message
        "The files have not been analyzed for this package."
        (some SpdxElementType.PACKAGE) package.spdx_id]
    else []) ++
    (if _has_licenses package.license_concluded package.license_declared then
      if package.copyright_text.py_not then
        [_create_custom_validation_message
          "This package has declared licenses but no copyright text populated."
          (some SpdxElementType.PACKAGE) package.spdx_id]
      else []
    else [])) ++
    _check_packages rest

/-- `_check_has_files` (checks.py lines 279-286). -/
def _check_has_files (document : Document) : Option ValidationMessage :=
  if document.files = [] then
    some (_create_custom_validation_message
      "The Document contains no files."
      (some SpdxElementType.DOCUMENT) "")
  else none

/-- `_check_files` (checks.py lines 289-328): the loop body appended per
file; the `continue` when the concluded license is not a `LicenseExpression`
becomes the match guard. -/
def _check_files : List File → List ValidationMessage
  | [] => []
  | file :: rest =>
    ((if file.name = "" then
      [_create_custom_validation_message "This file has no name."
        (some SpdxElementType.FILE) file.spdx_id]
    else []) ++
    (if file.license_concluded.is_license_expression then
      (if file.license_info_in_file = [] then
        [_create_custom_validation_message
          "This file has a concluded license but license_info_in_file is not populated."
          (some SpdxElementType.FILE) file.spdx_id]
      else []) ++
      (if file.copyright_text.py_not then
        [_create_custom_validation_message
          "This file has a concluded license but no copyright text."
          (some SpdxElementType.FILE) file.spdx_id]
      else [])
    else []))
    ++ _check_files rest

/-- `check_completeness` (checks.py lines 121-151), with the two walrus
early returns translated as matches. -/
def check_completeness (document : Document) : List ValidationMessage :=
  let messages := _check_creation_info document.creation_info
  match _check_has_packages document with
  | some has_packages_msg => messages ++ [has_packages_msg]
  | none =>
    let messages := messages ++ (_check_primary_package document).toList
    let messages := messages ++ _check_packages document.packages
    match _check_has_files document with
    | some has_files_msg => messages ++ [has_files_msg]
    | none => messages ++ _check_files document.files

/-- `check_sbom` (checks.py lines 92-113).  The external collaborators are
parameters: `json_loads` models `json.loads` (its failure is a raised
`JSONDecodeError`), `_parse_spdx` models the `JsonLikeDictParser` wrapper
(its failure is an `SPDXParsingError` carrying `get_messages()`), and
`validate_full_spdx_document` is the external specification validator.
`Except.error` in the result models an uncaught Python exception escaping
`check_sbom`: the `try` block wraps only `_parse_spdx`, so a `json.loads`
failure propagates. -/
def check_sbom {Dict : Type} (json_loads : String → Except String Dict)
    (_parse_spdx : Dict → Except (List String) Document)
    (validate_full_spdx_document : Document → List ValidationMessage)
    (spdx_json : String) : Except String CheckResult :=
  match json_loads spdx_json with
  | Except.error json_error => Except.error json_error
  | Except.ok spdx_dict =>
    match _parse_spdx spdx_dict with
    | Except.error error_messages => Except.ok ⟨[], error_messages⟩
    | Except.ok spdx_document =>
      let validation_messages := validate_full_spdx_document spdx_document
      let validation_messages :=
        validation_messages ++ check_completeness spdx_document
      Except.ok ⟨validation_messages, []⟩

/-! Concrete sample inputs used by the witnesses and counterexamples. -/

/-- A JSON deserializer that accepts exactly the text `{}` (as `json.loads`
does) and fails on anything else with CPython's message for invalid JSON. -/
def c1_json_loads : String → Except String Unit := fun s =>
  if s = "{}" then Except.ok () else
    Except.error "Expecting value: line 1 column 1 (char 0)"

/-- An SPDX parser that rejects every dict, with the message the real parser
produces for `{}` (see tests/test_checks.py, test_check_empty_document). -/
def c1_parse : Unit → Except (List String) Document := fun _ =>
  Except.error
    ["Error while parsing document None: [\x27CreationInfo does not exist.\x27]"]

/-- A specification validator that reports nothing. -/
def c1_validate : Document → List ValidationMessage := fun _ => []

/-- Creation info of a well-formed SPDX-2.3 document. -/
def sampleCreationInfo : CreationInfo :=
  { spdx_version := "SPDX-2.3", spdx_id := "SPDXRef-DOCUMENT"
    name := "Fake name", license_list_version := some "3.20" }

/-- A fully populated package (no diagnostics expected for it). -/
def samplePackage : Package :=
  { spdx_id := "SPDXRef-test.2", name := "LA.VENDOR"
    supplier := SupplierField.actor "Organization: Qualcomm"
    files_analyzed := true
    license_concluded := LicenseField.noAssertion
    license_declared := LicenseField.noAssertion
    copyright_text := CopyrightField.text "Copyright Qualcomm" }

/-- The relationship `SPDXRef-DOCUMENT DESCRIBES SPDXRef-test.2`. -/
def sampleDescribes : Relationship :=
  { spdx_element_id := "SPDXRef-DOCUMENT"
    relationship_type := RelationshipType.DESCRIBES
    related_spdx_element_id := SpdxElementRef.ref "SPDXRef-test.2"
    comment := none }

/-- A DESCRIBES relationship whose source is not the document id but whose
target is the first package. -/
def foreignDescribes : Relationship :=
  { spdx_element_id := "SPDXRef-OTHER"
    relationship_type := RelationshipType.DESCRIBES
    related_spdx_element_id := SpdxElementRef.ref "SPDXRef-test.2"
    comment := none }

/-- A fully populated file (no diagnostics expected for it). -/
def sampleFile : File :=
  { spdx_id := "SPDXRef-fakepath", name := "fakepath"
    license_concluded := LicenseField.expr "BSD-3-Clause"
    license_info_in_file := [LicenseField.expr "BSD-3-Clause"]
    copyright_text := CopyrightField.text "Copyright Qualcomm" }

/-- Document whose single DESCRIBES relationship has a foreign source but
the correct target (counterexample input for C2). -/
def c2_doc_foreign : Document :=
  { creation_info := sampleCreationInfo, packages := [samplePackage]
    files := [sampleFile], relationships := [foreignDescribes] }

/-- Document with a package but no relationships at all (counterexample
input for C2's message-content conjunct). -/
def c2_doc_zero : Document :=
  { creation_info := sampleCreationInfo, packages := [samplePackage]
    files := [sampleFile], relationships := [] }

/-- Document for C2's witness: two DESCRIBES relationships. -/
def c2_doc_two : Document :=
  { creation_info := sampleCreationInfo, packages := [samplePackage]
    files := [sampleFile]
    relationships := [sampleDescribes, foreignDescribes] }

/-- Document whose single DESCRIBES relationship targets the first package
but originates elsewhere (counterexample input for C3). -/
def c3_doc : Document :=
  { creation_info := sampleCreationInfo, packages := [samplePackage]
    files := [sampleFile], relationships := [foreignDescribes] }

/-- Document with a correct single DESCRIBES relationship (C3 witness). -/
def c3_doc_ok : Document :=
  { creation_info := sampleCreationInfo, packages := [samplePackage]
    files := [sampleFile], relationships := [sampleDescribes] }

/-- Document with no packages but with files (C4 witness input). -/
def c4_doc : Document :=
  { creation_info := sampleCreationInfo, packages := []
    files := [sampleFile], relationships := [] }

/-- A file with no concluded license, no name, empty license info and no
copyright text (C5 witness input). -/
def c5_file : File :=
  { spdx_id := "SPDXRef-nofile", name := ""
    license_concluded := LicenseField.noAssertion
    license_info_in_file := [], copyright_text := CopyrightField.absent }

/-- Document for the C6 witness. -/
def c6_doc : Document :=
  { creation_info := sampleCreationInfo, packages := [samplePackage]
    files := [sampleFile], relationships := [sampleDescribes] }

/-- A deserializer succeeding on every input (C6 witness). -/
def c6_json_loads : String → Except String Unit := fun _ => Except.ok ()

/-- A parser producing `c6_doc` for every dict (C6 witness). -/
def c6_parse : Unit → Except (List String) Document := fun _ =>
  Except.ok c6_doc

/-- An externally produced specification diagnostic: no completeness marker,
`None` context fields (C6/C7 witness). -/
def externalMessage : ValidationMessage :=
  { validation_message :=
      "there must be at least one relationship \"SPDXRef-DOCUMENT DESCRIBES ...\""
    context := { spdx_id := none, parent_id := none, element_type := none } }

/-- A validator reporting one external specification diagnostic (C6). -/
def c6_validate : Document → List ValidationMessage := fun _ =>
  [externalMessage]

/-- A diagnostic whose message embeds newlines (C7 witness input). -/
def c7_result : CheckResult :=
  { _validation_messages :=
      [{ validation_message := "\nline one\nline two\n"
         context := { spdx_id := some "SPDXRef-x", parent_id := none
                      element_type := some SpdxElementType.PACKAGE } }]
    errors := [] }

/-- Document with an empty packages list (C8 witness input). -/
def c8_doc : Document :=
  { creation_info := sampleCreationInfo, packages := []
    files := [], relationships := [] }

/-- A package with an asserted license and `SpdxNoAssertion` copyright text
(C10 witness input). -/
def c10_pkg : Package :=
  { spdx_id := "SPDXRef-c10", name := "c10"
    supplier := SupplierField.absent, files_analyzed := false
    license_concluded := LicenseField.expr "BSD-3-Clause"
    license_declared := LicenseField.absent
    copyright_text := CopyrightField.noAssertion }

set_option maxRecDepth 8000

/-! ## Theorems -/

/-- C9: for every `CheckResult`, `is_valid` is true if and only if the
diagnostics sequence is non-empty or the parse-error sequence is non-empty,
so a caller can distinguish unreadable, readable-but-incomplete and clean
documents. -/
theorem is_valid_iff_has_findings (r : CheckResult) :
    r.is_valid = true ↔
      r._validation_messages ≠ [] ∨ r.errors ≠ [] := by
  simp [CheckResult.is_valid, List.isEmpty_iff]

/-- C7: the CSV projection of every `CheckResult` starts with the fixed
four-column header, has exactly one row per diagnostic plus the header, and
no row's message field (index 3) contains an embedded newline. -/
theorem csv_rows_shape (r : CheckResult) :
    r.csv_rows.length = r._validation_messages.length + 1 ∧
    r.csv_rows.head? = some CSV_HEADER ∧
    ∀ row ∈ r.csv_rows, ∀ s, row.get? 3 = some s →
      Char.ofNat 10 ∉ s.data := by
  refine ⟨?_, ?_, ?_⟩
  · simp [CheckResult.csv_rows, CheckResult.validation_messages]
  · simp [CheckResult.csv_rows]
  · intro row hrow s hs
    simp only [CheckResult.csv_rows, List.mem_append, List.mem_map,
      List.mem_singleton] at hrow
    rcases hrow with hrow | ⟨d, _, hrow⟩
    · subst hrow
      simp [CSV_HEADER, SPDX_ID, PARENT_ID, ELEMENT_TYPE, MESSAGE,
        List.get?] at hs
      subst hs
      decide
    · subst hrow
      simp [List.get?] at hs
      subst hs
      intro hmem
      have := List.of_mem_filter hmem
      simp at this

/-- Closed witness for C7 at a result whose single diagnostic message
contains embedded newlines: its emitted CSV message field has none left. -/
theorem csv_rows_shape_witness :
    c7_result.csv_rows.length = c7_result._validation_messages.length + 1 ∧
    c7_result.csv_rows.head? = some CSV_HEADER ∧
    Char.ofNat 10 ∉ (pyStripNewlines "\nline one\nline two\n").data :=
  ⟨(csv_rows_shape c7_result).1, (csv_rows_shape c7_result).2.1,
    (csv_rows_shape c7_result).2.2
      ["SPDXRef-x", "", "SpdxElementType.PACKAGE",
        pyStripNewlines "\nline one\nline two\n"]
      (by decide) (pyStripNewlines "\nline one\nline two\n") rfl⟩

/-- C6: on the success path the entry operation returns a `CheckResult`
whose diagnostics are the external specification validator's diagnostics
followed by the completeness diagnostics, in that order, with empty
parse errors. -/
theorem check_sbom_success_path {Dict : Type}
    (json_loads : String → Except String Dict)
    (ps : Dict → Except (List String) Document)
    (vf : Document → List ValidationMessage)
    (s : String) (d : Dict) (doc : Document)
    (h1 : json_loads s = Except.ok d) (h2 : ps d = Except.ok doc) :
    check_sbom json_loads ps vf s =
      Except.ok ⟨vf doc ++ check_completeness doc, []⟩ := by
  simp [check_sbom, h1, h2]

/-- Closed witness for C6 with concrete collaborators. -/
theorem check_sbom_success_path_witness :
    check_sbom c6_json_loads c6_parse c6_validate "{}" =
      Except.ok ⟨c6_validate c6_doc ++ check_completeness c6_doc, []⟩ :=
  check_sbom_success_path c6_json_loads c6_parse c6_validate "{}" () c6_doc
    rfl rfl

/-- C1, counterexample: the input `"not json"` fails JSON deserialization,
and `check_sbom` propagates the deserialization failure as an uncaught
exception (`Except.error`) instead of returning a `CheckResult` whose
`errors` contain it. -/
theorem check_sbom_json_error_counterexample :
    check_sbom c1_json_loads c1_parse c1_validate "not json" =
      Except.error "Expecting value: line 1 column 1 (char 0)" ∧
    (check_sbom c1_json_loads c1_parse c1_validate "not json").isOk
      = false := by
  exact ⟨rfl, rfl⟩

/-- C1 (amended): a JSON deserialization failure propagates out of
`check_sbom` as a raised exception; only an input that deserializes but is
rejected by the SPDX structural parser yields a `CheckResult` whose
`errors` are the parser's messages and whose diagnostics are empty. -/
theorem check_sbom_error_paths {Dict : Type}
    (json_loads : String → Except String Dict)
    (ps : Dict → Except (List String) Document)
    (vf : Document → List ValidationMessage) (s : String) :
    (∀ e, json_loads s = Except.error e →
      check_sbom json_loads ps vf s = Except.error e) ∧
    (∀ d msgs, json_loads s = Except.ok d → ps d = Except.error msgs →
      check_sbom json_loads ps vf s = Except.ok ⟨[], msgs⟩) := by
  constructor
  · intro e he
    simp [check_sbom, he]
  · intro d msgs hd hmsgs
    simp [check_sbom, hd, hmsgs]

/-- Closed witness for the amended C1: both error paths at concrete
inputs. -/
theorem check_sbom_error_paths_witness :
    check_sbom c1_json_loads c1_parse c1_validate "not json" =
      Except.error "Expecting value: line 1 column 1 (char 0)" ∧
    check_sbom c1_json_loads c1_parse c1_validate "{}" =
      Except.ok ⟨[],
        ["Error while parsing document None: [\x27CreationInfo does not exist.\x27]"]⟩ :=
  ⟨(check_sbom_error_paths c1_json_loads c1_parse c1_validate
      "not json").1 _ rfl,
   (check_sbom_error_paths c1_json_loads c1_parse c1_validate
      "{}").2 () _ rfl rfl⟩

/-- C2, counterexample: `c2_doc_foreign` has zero DESCRIBES relationships
whose source is the document identifier, yet the check emits the
target-mismatch diagnostic (it counted the foreign-source DESCRIBES
relationship), not a count diagnostic; and at `c2_doc_zero` the count
diagnostic's message contains no character `0` (Char.ofNat 48), because the
misplaced f-string prefix leaves the placeholder uninterpolated. -/
theorem primary_package_count_counterexample :
    (c2_doc_foreign.relationships.filter fun relationship =>
        relationship.relationship_type = RelationshipType.DESCRIBES ∧
        relationship.spdx_element_id =
          c2_doc_foreign.creation_info.spdx_id).length = 0 ∧
    _check_primary_package c2_doc_foreign =
      some (_create_custom_validation_message describes_mismatch_message_text
        (some SpdxElementType.DOCUMENT) "") ∧
    _check_primary_package c2_doc_zero =
      some (_create_custom_validation_message describes_count_message_text
        (some SpdxElementType.DOCUMENT) "") ∧
    Char.ofNat 48 ∉
      (COMPLETENESS_EXCEPTION ++ describes_count_message_text).data := by
  exact ⟨rfl, rfl, rfl, by decide⟩

/-- C2 (amended): for every document with a non-empty packages sequence,
the primary-package check counts the relationships of type DESCRIBES
regardless of their source, and whenever that count is not exactly one it
emits exactly one DOCUMENT diagnostic carrying the fixed count-mismatch
message (whose text, due to a misplaced f-string prefix, contains a literal
placeholder instead of the actual count); in particular for zero DESCRIBES
relationships that single count diagnostic is produced and no
target-mismatch diagnostic accompanies it. -/
theorem primary_package_count_branch (doc : Document)
    (hne : doc.packages ≠ [])
    (hcount : (doc.relationships.filter fun relationship =>
        relationship.relationship_type =
          RelationshipType.DESCRIBES).length ≠ 1) :
    _check_primary_package doc =
      some (_create_custom_validation_message describes_count_message_text
        (some SpdxElementType.DOCUMENT) "") := by
  obtain ⟨ci, pkgs, fls, rels⟩ := doc
  cases pkgs with
  | nil => exact absurd rfl hne
  | cons primary rest =>
    simp only at hcount
    cases hF : rels.filter (fun relationship =>
        decide (relationship.relationship_type =
          RelationshipType.DESCRIBES)) with
    | nil => simp [_check_primary_package, hF]
    | cons a tail =>
      cases tail with
      | nil =>
        rw [hF] at hcount
        simp at hcount
      | cons b tail2 => simp [_check_primary_package, hF]

/-- Closed witness for the amended C2 at a document with two DESCRIBES
relationships. -/
theorem primary_package_count_branch_witness :
    _check_primary_package c2_doc_two =
      some (_create_custom_validation_message describes_count_message_text
        (some SpdxElementType.DOCUMENT) "") :=
  primary_package_count_branch c2_doc_two (by decide) (by decide)

/-- C3, counterexample: `c3_doc` has exactly one DESCRIBES relationship and
its target is the spdx_id of the first package, yet the check emits the
target-mismatch diagnostic, because the comparison also involves the
relationship's source (here `SPDXRef-OTHER`, not the document id). -/
theorem primary_package_mismatch_counterexample :
    c3_doc.relationships.filter (fun relationship =>
        relationship.relationship_type = RelationshipType.DESCRIBES) =
      [foreignDescribes] ∧
    c3_doc.packages.head? = some samplePackage ∧
    foreignDescribes.related_spdx_element_id =
      SpdxElementRef.ref samplePackage.spdx_id ∧
    _check_primary_package c3_doc =
      some (_create_custom_validation_message describes_mismatch_message_text
        (some SpdxElementType.DOCUMENT) "") := by
  exact ⟨rfl, rfl, rfl, rfl⟩

/-- C3 (amended): for every document with a non-empty packages sequence and
exactly one DESCRIBES relationship, the check emits the mismatch DOCUMENT
diagnostic if and only if that relationship differs in any field (source,
target, or comment) from the expected relationship `(document id, DESCRIBES,
first package's spdx_id, no comment)`; it emits nothing otherwise, so at
most one diagnostic is emitted and the two outcomes are mutually
exclusive. -/
theorem primary_package_mismatch_iff (doc : Document) (primary : Package)
    (rest : List Package) (r : Relationship)
    (hp : doc.packages = primary :: rest)
    (hr : doc.relationships.filter (fun relationship =>
        relationship.relationship_type = RelationshipType.DESCRIBES) =
      [r]) :
    (_check_primary_package doc =
        some (_create_custom_validation_message
          describes_mismatch_message_text
          (some SpdxElementType.DOCUMENT) "") ↔
      r ≠ { spdx_element_id := doc.creation_info.spdx_id
            relationship_type := RelationshipType.DESCRIBES
            related_spdx_element_id := SpdxElementRef.ref primary.spdx_id
            comment := none }) ∧
    (_check_primary_package doc = none ↔
      r = { spdx_element_id := doc.creation_info.spdx_id
            relationship_type := RelationshipType.DESCRIBES
            related_spdx_element_id := SpdxElementRef.ref primary.spdx_id
            comment := none }) := by
  obtain ⟨ci, pkgs, fls, rels⟩ := doc
  simp only at hp hr
  subst hp
  simp only [_check_primary_package, hr]
  by_cases h : ({ spdx_element_id := ci.spdx_id,
                  relationship_type := RelationshipType.DESCRIBES,
                  related_spdx_element_id :=
                    SpdxElementRef.ref primary.spdx_id,
                  comment := none } : Relationship) = r
  · simp [h]
  · simp [h]
    exact fun hc => absurd hc.symm h

/-- Closed witness for the amended C3 at a document whose single DESCRIBES
relationship is exactly the expected one. -/
theorem primary_package_mismatch_iff_witness :
    (_check_primary_package c3_doc_ok =
        some (_create_custom_validation_message
          describes_mismatch_message_text
          (some SpdxElementType.DOCUMENT) "") ↔
      sampleDescribes ≠
        { spdx_element_id := c3_doc_ok.creation_info.spdx_id
          relationship_type := RelationshipType.DESCRIBES
          related_spdx_element_id :=
            SpdxElementRef.ref samplePackage.spdx_id
          comment := none }) ∧
    (_check_primary_package c3_doc_ok = none ↔
      sampleDescribes =
        { spdx_element_id := c3_doc_ok.creation_info.spdx_id
          relationship_type := RelationshipType.DESCRIBES
          related_spdx_element_id :=
            SpdxElementRef.ref samplePackage.spdx_id
          comment := none }) :=
  primary_package_mismatch_iff c3_doc_ok samplePackage [] sampleDescribes
    rfl rfl

/-- Every creation-info diagnostic is CREATION_INFO-scoped. -/
lemma mem_check_creation_info_element_type {ci : CreationInfo}
    {m : ValidationMessage} (hm : m ∈ _check_creation_info ci) :
    m.context.element_type = some SpdxElementType.CREATION_INFO := by
  unfold _check_creation_info at hm
  simp only [List.mem_append] at hm
  rcases hm with (hm | hm) | hm <;> split_ifs at hm <;> simp at hm <;>
    subst hm <;> rfl

/-- With an empty packages sequence, `check_completeness` is the
creation-info diagnostics followed by the single no-packages diagnostic. -/
lemma check_completeness_no_packages {doc : Document}
    (h : doc.packages = []) :
    check_completeness doc =
      _check_creation_info doc.creation_info ++
        [_create_custom_validation_message "The Document contains no packages."
          (some SpdxElementType.DOCUMENT) ""] := by
  unfold check_completeness _check_has_packages
  simp [h]

/-- C4: for every document with an empty packages sequence the completeness
diagnostics contain exactly one DOCUMENT-scoped finding — the
"contains no packages" one — and zero PACKAGE- or FILE-scoped findings,
regardless of the document's files. -/
theorem no_packages_short_circuit (doc : Document)
    (h : doc.packages = []) :
    ((check_completeness doc).filter fun m =>
        m.context.element_type = some SpdxElementType.DOCUMENT) =
      [_create_custom_validation_message "The Document contains no packages."
        (some SpdxElementType.DOCUMENT) ""] ∧
    ((check_completeness doc).countP fun m =>
        m.context.element_type = some SpdxElementType.PACKAGE ∨
        m.context.element_type = some SpdxElementType.FILE) = 0 := by
  rw [check_completeness_no_packages h]
  constructor
  · rw [List.filter_append]
    have h1 : (_check_creation_info doc.creation_info).filter (fun m =>
        decide (m.context.element_type = some SpdxElementType.DOCUMENT)) =
          [] := by
      rw [List.filter_eq_nil_iff]
      intro m hm
      simp [mem_check_creation_info_element_type hm]
    rw [h1]
    simp [_create_custom_validation_message]
  · rw [List.countP_append]
    have h1 : (_check_creation_info doc.creation_info).countP (fun m =>
        decide (m.context.element_type = some SpdxElementType.PACKAGE ∨
          m.context.element_type = some SpdxElementType.FILE)) = 0 := by
      rw [List.countP_eq_zero]
      intro m hm
      simp [mem_check_creation_info_element_type hm]
    rw [h1]
    simp [_create_custom_validation_message]

/-- Closed witness for C4 at a document with no packages but with files. -/
theorem no_packages_short_circuit_witness :
    ((check_completeness c4_doc).filter fun m =>
        m.context.element_type = some SpdxElementType.DOCUMENT) =
      [_create_custom_validation_message "The Document contains no packages."
        (some SpdxElementType.DOCUMENT) ""] ∧
    ((check_completeness c4_doc).countP fun m =>
        m.context.element_type = some SpdxElementType.PACKAGE ∨
        m.context.element_type = some SpdxElementType.FILE) = 0 :=
  no_packages_short_circuit c4_doc rfl

/-- `_check_files` distributes over list concatenation. -/
lemma check_files_append (l1 l2 : List File) :
    _check_files (l1 ++ l2) = _check_files l1 ++ _check_files l2 := by
  induction l1 with
  | nil => simp [_check_files]
  | cons f rest ih => simp [_check_files, ih]

/-- C5: a file whose concluded license is absent or the no-assertion
sentinel contributes no license-info and no copyright diagnostic — only the
name check can fire for it — even when `license_info_in_file` is empty and
the copyright text absent. -/
theorem exempt_file_only_name_check (pre post : List File) (f : File)
    (h : f.license_concluded = LicenseField.absent ∨
      f.license_concluded = LicenseField.noAssertion) :
    _check_files (pre ++ f :: post) =
      _check_files pre ++
      (if f.name = "" then
        [_create_custom_validation_message "This file has no name."
          (some SpdxElementType.FILE) f.spdx_id]
      else []) ++
      _check_files post := by
  have hexpr : f.license_concluded.is_license_expression = false := by
    rcases h with h | h <;> simp [h, LicenseField.is_license_expression]
  rw [check_files_append]
  have hsingle : _check_files (f :: post) =
      (if f.name = "" then
        [_create_custom_validation_message "This file has no name."
          (some SpdxElementType.FILE) f.spdx_id]
      else []) ++ _check_files post := by
    simp [_check_files, hexpr]
  rw [hsingle, List.append_assoc]

/-- Closed witness for C5: a nameless, licenseless file between two
populated files. -/
theorem exempt_file_only_name_check_witness :
    _check_files ([sampleFile] ++ c5_file :: [sampleFile]) =
      _check_files [sampleFile] ++
      (if c5_file.name = "" then
        [_create_custom_validation_message "This file has no name."
          (some SpdxElementType.FILE) c5_file.spdx_id]
      else []) ++
      _check_files [sampleFile] :=
  exempt_file_only_name_check [sampleFile] [sampleFile] c5_file
    (Or.inr rfl)

/-- Every diagnostic of `_check_creation_info` carries the completeness
marker. -/
lemma marker_creation {ci : CreationInfo} {m : ValidationMessage}
    (hm : m ∈ _check_creation_info ci) :
    ∃ rest, m.validation_message = COMPLETENESS_EXCEPTION ++ rest := by
  unfold _check_creation_info at hm
  simp only [List.mem_append] at hm
  rcases hm with (hm | hm) | hm <;> split_ifs at hm <;> simp at hm <;>
    subst hm <;> exact ⟨_, rfl⟩

/-- The no-packages diagnostic carries the completeness marker. -/
lemma marker_has_packages {doc : Document} {m : ValidationMessage}
    (h : _check_has_packages doc = some m) :
    ∃ rest, m.validation_message = COMPLETENESS_EXCEPTION ++ rest := by
  unfold _check_has_packages at h
  split_ifs at h <;> simp at h
  subst h
  exact ⟨_, rfl⟩

/-- The primary-package diagnostics carry the completeness marker. -/
lemma marker_primary {doc : Document} {m : ValidationMessage}
    (h : _check_primary_package doc = some m) :
    ∃ rest, m.validation_message = COMPLETENESS_EXCEPTION ++ rest := by
  unfold _check_primary_package at h
  split at h
  · simp at h
  · dsimp only at h
    split at h
    · split_ifs at h <;> simp at h
      subst h
      exact ⟨_, rfl⟩
    · simp at h
      subst h
      exact ⟨_, rfl⟩

/-- Every per-package diagnostic carries the completeness marker. -/
lemma marker_packages {pkgs : List Package} {m : ValidationMessage}
    (hm : m ∈ _check_packages pkgs) :
    ∃ rest, m.validation_message = COMPLETENESS_EXCEPTION ++ rest := by
  induction pkgs with
  | nil => simp [_check_packages] at hm
  | cons p rest ih =>
    simp only [_check_packages, List.mem_append] at hm
    rcases hm with ((hm | hm) | hm) | hm
    · split_ifs at hm <;> simp at hm
      subst hm
      exact ⟨_, rfl⟩
    · split_ifs at hm <;> simp at hm
      subst hm
      exact ⟨_, rfl⟩
    · split_ifs at hm <;> simp at hm
      subst hm
      exact ⟨_, rfl⟩
    · exact ih hm

/-- The no-files diagnostic carries the completeness marker. -/
lemma marker_has_files {doc : Document} {m : ValidationMessage}
    (h : _check_has_files doc = some m) :
    ∃ rest, m.validation_message = COMPLETENESS_EXCEPTION ++ rest := by
  unfold _check_has_files at h
  split_ifs at h <;> simp at h
  subst h
  exact ⟨_, rfl⟩

/-- Every per-file diagnostic carries the completeness marker. -/
lemma marker_files {fls : List File} {m : ValidationMessage}
    (hm : m ∈ _check_files fls) :
    ∃ rest, m.validation_message = COMPLETENESS_EXCEPTION ++ rest := by
  induction fls with
  | nil => simp [_check_files] at hm
  | cons f rest ih =>
    simp only [_check_files, List.mem_append] at hm
    rcases hm with (hm | hm) | hm
    · split_ifs at hm <;> simp at hm
      subst hm
      exact ⟨_, rfl⟩
    · split_ifs at hm <;>
        simp only [List.mem_append, List.mem_singleton,
          List.not_mem_nil, or_false, false_or] at hm <;>
        first
          | exact hm.elim
          | (subst hm; exact ⟨_, rfl⟩)
          | (rcases hm with hm | hm <;> subst hm <;> exact ⟨_, rfl⟩)
    · exact ih hm

/-- C8: every diagnostic message produced by the completeness rule engine
begins with the fixed marker (a leading newline followed by
`*** completeness exception ***`), for every rule and every document. -/
theorem completeness_marker (doc : Document) (m : ValidationMessage)
    (hm : m ∈ check_completeness doc) :
    ∃ rest, m.validation_message = COMPLETENESS_EXCEPTION ++ rest := by
  unfold check_completeness at hm
  split at hm
  case h_1 msg heq =>
    simp only [List.mem_append, List.mem_singleton] at hm
    rcases hm with hm | hm
    · exact marker_creation hm
    · subst hm
      exact marker_has_packages heq
  case h_2 heq =>
    split at hm
    case h_1 msg2 heq2 =>
      simp only [List.mem_append, List.mem_singleton] at hm
      rcases hm with ((hm | hm) | hm) | hm
      · exact marker_creation hm
      · rcases Option.mem_toList.mp hm with hsome
        exact marker_primary hsome
      · exact marker_packages hm
      · subst hm
        exact marker_has_files heq2
    case h_2 heq2 =>
      simp only [List.mem_append] at hm
      rcases hm with ((hm | hm) | hm) | hm
      · exact marker_creation hm
      · rcases Option.mem_toList.mp hm with hsome
        exact marker_primary hsome
      · exact marker_packages hm
      · exact marker_files hm

/-- Closed witness for C8: the no-packages diagnostic of `c8_doc`. -/
theorem completeness_marker_witness :
    ∃ rest,
      (_create_custom_validation_message "The Document contains no packages."
        (some SpdxElementType.DOCUMENT) "").validation_message =
        COMPLETENESS_EXCEPTION ++ rest :=
  completeness_marker c8_doc _ (by decide)

/-- C10: for every package with an asserted (genuine) license whose
`copyright_text` holds the no-assertion sentinel object, the
license-evidence check emits nothing: the sentinel is truthy, so the
package contributes only its supplier and files-analyzed diagnostics. -/
theorem no_assertion_copyright_exempt (p : Package)
    (h1 : _has_licenses p.license_concluded p.license_declared = true)
    (h2 : p.copyright_text = CopyrightField.noAssertion) :
    _check_packages [p] =
      (if p.supplier = SupplierField.absent ∨
          p.supplier = SupplierField.noAssertion then
        [_create_custom_validation_message
          "This package has no supplier populated."
          (some SpdxElementType.PACKAGE) p.spdx_id]
      else []) ++
      (if p.files_analyzed = false then
        [_create_custom_validation_message
          "The files have not been analyzed for this package."
          (some SpdxElementType.PACKAGE) p.spdx_id]
      else []) := by
  simp [_check_packages, h1, h2, CopyrightField.py_not]

/-- Closed witness for C10 at `c10_pkg`. -/
theorem no_assertion_copyright_exempt_witness :
    _check_packages [c10_pkg] =
      (if c10_pkg.supplier = SupplierField.absent ∨
          c10_pkg.supplier = SupplierField.noAssertion then
        [_create_custom_validation_message
          "This package has no supplier populated."
          (some SpdxElementType.PACKAGE) c10_pkg.spdx_id]
      else []) ++
      (if c10_pkg.files_analyzed = false then
        [_create_custom_validation_message
          "The files have not been analyzed for this package."
          (some SpdxElementType.PACKAGE) c10_pkg.spdx_id]
      else []) :=
  no_assertion_copyright_exempt c10_pkg rfl rfl

end SbomCheck
